import Mathlib

/-!
Verification development for the HackNYU eco-scoring engine.

The Python sources under analysis are `analyze/ecoscore.py`,
`analyze/similar_search.py`, `analyze/tagging.py` and
`analyze/api_server.py`.  Python floats are modelled as rationals (ℚ),
Python strings as `String` / `List Char` (text processing is done on the
character list; `lower`, `upper` and `strip` are modelled for ASCII),
optional values as `Option`, and Python exceptions as `Except` values.
All definitions are computable and fuel-based where the source loops, so
they evaluate on concrete inputs inside the kernel.
-/

/-- ASCII model of Python `str.lower`. -/
def pyLower (s : List Char) : List Char := s.map Char.toLower

/-- ASCII model of Python `str.upper`. -/
def pyUpper (s : List Char) : List Char := s.map Char.toUpper

/-- Model of Python `str.strip`: drop whitespace on both ends. -/
def pyStrip (s : List Char) : List Char :=
  ((s.dropWhile Char.isWhitespace).reverse.dropWhile Char.isWhitespace).reverse

/-- Model of the Python substring test `pat in s`. -/
def subOf (pat : List Char) : List Char → Bool
  | [] => pat.isEmpty
  | c :: rest => pat.isPrefixOf (c :: rest) || subOf pat rest

/-- One fuel-indexed pass of Python `str.replace`: replace every
non-overlapping occurrence of `pat` left to right.  Each step consumes at
least one character of the remaining input, so fuel `s.length` is enough. -/
def replaceFuel (pat rep : List Char) : ℕ → List Char → List Char
  | 0, s => s
  | _ + 1, [] => []
  | n + 1, c :: rest =>
    if pat.isPrefixOf (c :: rest) then
      rep ++ replaceFuel pat rep n ((c :: rest).drop pat.length)
    else
      c :: replaceFuel pat rep n rest

/-- Model of Python `s.replace(pat, rep)` for the non-empty patterns used by
the source (`ecoscore.py` only replaces fixed non-empty alias strings). -/
def pyReplace (s pat rep : List Char) : List Char :=
  if pat = [] then s else replaceFuel pat rep s.length s

/-- Value of an ASCII digit run, most significant first. -/
def digitsToNat (ds : List Char) : ℕ :=
  ds.foldl (fun n c => 10 * n + (c.toNat - 48)) 0

/-- Numeric value of the regex groups `intpart(.fracpart)?`, as Python
`float` would read them (exact, since the source only meets decimals). -/
def decimalVal (intPart fracPart : List Char) : ℚ :=
  if fracPart = [] then (digitsToNat intPart : ℚ)
  else (digitsToNat intPart : ℚ) + (digitsToNat fracPart : ℚ) / (10 : ℚ) ^ fracPart.length

/-- Try to match the regex `(\d+\.?\d*)\s*%` of `ecoscore.py` at the start of
`s`.  The only backtracking the pattern ever needs is on the optional
fractional point, which is what the second branch models. -/
def matchPctAt (s : List Char) : Option ℚ :=
  let sp := s.span Char.isDigit
  if sp.1 = [] then none
  else
    let tryFrom := fun (frac rest : List Char) =>
      match rest.dropWhile Char.isWhitespace with
      | '%' :: _ => some (decimalVal sp.1 frac)
      | _ => none
    match sp.2 with
    | '.' :: r2 =>
      let sp2 := r2.span Char.isDigit
      match tryFrom sp2.1 sp2.2 with
      | some q => some q
      | none => tryFrom [] sp.2
    | _ => tryFrom [] sp.2

/-- Model of `re.search(r"(\d+\.?\d*)\s*%", part)`: leftmost match wins. -/
def findPct : List Char → Option ℚ
  | [] => none
  | c :: rest =>
    match matchPctAt (c :: rest) with
    | some q => some q
    | none => findPct rest

/-- The `MATERIAL_IMPACT` table of `ecoscore.py`, in source (dict insertion)
order; the order matters because `_detect_material_tokens` scans the keys in
that order. -/
def MATERIAL_IMPACT : List (String × ℚ) :=
  [("hemp", 1.1), ("linen", 1.2), ("lyocell", 1.3),
   ("organic_cotton", 2.4), ("recycled_cotton", 2.0), ("recycled_wool", 2.2),
   ("down", 2.8), ("feather", 3.0),
   ("viscose", 3.1), ("rayon", 3.1), ("modal", 2.9), ("cupro", 2.8),
   ("bamboo", 2.6),
   ("cotton", 3.6), ("wool", 4.2), ("silk", 4.3), ("cashmere", 4.9),
   ("polyester", 3.9), ("polyamide", 4.1),
   ("recycled_polyester", 3.4), ("recycled_polyamide", 3.4),
   ("recycled_acrylic", 3.6), ("acrylic", 4.3), ("elastane", 4.4),
   ("synthetic_other", 4.0),
   ("synthetic_leather", 4.6), ("pvc", 4.7),
   ("leather", 4.8), ("fur", 5.0),
   ("unknown", 3.5)]

/-- `MATERIAL_IMPACT.get(key, MATERIAL_IMPACT["unknown"])`: dictionary lookup
with the impact of the `unknown` sentinel (3.5) as default. -/
def materialImpactGet (key : String) : ℚ :=
  match MATERIAL_IMPACT.find? (fun kv => kv.1 == key) with
  | some kv => kv.2
  | none => 3.5

/-- The alias pre-normalization dict `repl` of `_detect_material_tokens`, in
source order; the replacements are applied sequentially in this order. -/
def REPL_TABLE : List (String × String) :=
  [("organic cotton", "organic_cotton"), ("bio cotton", "organic_cotton"),
   ("recycled cotton", "recycled_cotton"), ("recycled polyester", "recycled_polyester"),
   ("rpet", "recycled_polyester"),
   ("recycled wool", "recycled_wool"), ("recycled nylon", "recycled_polyamide"),
   ("recycled polyamide", "recycled_polyamide"), ("recycled acrylic", "recycled_acrylic"),
   ("cupro", "cupro"),
   ("polyamide", "polyamide"), ("nylon", "polyamide"),
   ("flax", "linen"), ("tencel", "lyocell"), ("lyocell", "lyocell"),
   ("modal", "modal"), ("viscose", "viscose"), ("rayon", "rayon"),
   ("bamboo", "bamboo"), ("hemp", "hemp"), ("linen", "linen"),
   ("wool", "wool"), ("merino", "wool"), ("silk", "silk"),
   ("cashmere", "cashmere"),
   ("leather", "leather"), ("genuine leather", "leather"), ("real leather", "leather"),
   ("faux leather", "synthetic_leather"), ("vegan leather", "synthetic_leather"),
   ("pu leather", "synthetic_leather"), ("polyurethane", "synthetic_leather"),
   ("pvc", "pvc"), ("polyester", "polyester"),
   ("elastane", "elastane"), ("spandex", "elastane"), ("lycra", "elastane"),
   ("acrylic", "acrylic")]

/-- The sequential alias replacement loop `for k, v in repl.items(): text =
text.replace(k, v)`. -/
def applyRepl (s : List Char) : List Char :=
  REPL_TABLE.foldl (fun t kv => pyReplace t kv.1.data kv.2.data) s

/-- First `MATERIAL_IMPACT` key (in table order) occurring in `part`. -/
def findMatKey (part : List Char) : Option String :=
  (MATERIAL_IMPACT.find? (fun kv => subOf kv.1.data part)).map (fun kv => kv.1)

/-- `_detect_material_tokens` of `ecoscore.py`: parse a free-form materials
string into `(material_key, percentage)` tokens.  `none` models Python
`None`; the empty string is falsy in Python, hence the same fallback. -/
def _detect_material_tokens (materials : Option String) : List (String × Option ℚ) :=
  match materials with
  | none => [("unknown", none)]
  | some ms =>
    if ms.data = [] then [("unknown", none)]
    else
      let text := applyRepl (pyLower ms.data)
      let parts := List.splitOnP (fun c => c = ',' || c = '/' || c = ';') text
      let tokens := parts.foldl (fun acc part0 =>
        let part := pyStrip part0
        if part = [] then acc
        else
          let pct := findPct part
          let key :=
            match findMatKey part with
            | some k => k
            | none =>
              if subOf "poly".data part || subOf "acrylic".data part
                  || subOf "elastane".data part then "synthetic_other"
              else "unknown"
          acc ++ [(key, pct)]) []
      if tokens = [] then [("unknown", none)] else tokens

/-- `_weighted_material_impact` of `ecoscore.py`.  Note the `total_pct <= 0`
branch really sets every weight to `1.0` (not `1/n`). -/
def _weighted_material_impact (tokens : List (String × Option ℚ)) : ℚ :=
  if tokens = [] then materialImpactGet "unknown"
  else
    let weights :=
      if tokens.any (fun t => t.2.isSome) then
        let total_pct := (tokens.map (fun t => t.2.getD 0)).sum
        if total_pct ≤ 0 then tokens.map (fun _ => (1 : ℚ))
        else tokens.map (fun t => t.2.getD 0 / total_pct)
      else tokens.map (fun _ => (1 : ℚ) / tokens.length)
    ((tokens.zip weights).map (fun tw => tw.2 * materialImpactGet tw.1.1)).sum

/-- `STRONG_CERT_KEYWORDS` of `ecoscore.py` (all entries, source order). -/
def STRONG_CERT_KEYWORDS : List String :=
  ["gots", "global organic textile standard",
   "fairtrade", "fair trade",
   "bluesign",
   "cradle to cradle", "cradle-to-cradle",
   "b corp", "b-corp", "b corporation",
   "global recycled standard", "global recycling standard", "grs",
   "recycled claim standard", "rcs",
   "organic content standard", "organic cotton standard", "ocs",
   "global organic textile standard (gots)",
   "grs certified", "rcs certified", "ocs certified",
   "fairtrade cotton", "fairtrade textile standard",
   "fair trade certified",
   "fair wear foundation", "fair wear", "fairwear",
   "world fair trade organization", "world fair trade organisation", "wfto",
   "sa8000",
   "zq merino", "zqrx", "zq merino wool",
   "eu ecolabel", "european ecolabel",
   "nordic swan", "nordic swan ecolabel", "svanen",
   "regenerative organic certified", "roc",
   "certified regenerative by agw",
   "peta-approved vegan", "peta approved vegan",
   "vegan trademark", "the vegan society", "vegan society trademark",
   "certified vegan", "vegan action"]

/-- `MODERATE_CERT_KEYWORDS` of `ecoscore.py` (all entries, source order). -/
def MODERATE_CERT_KEYWORDS : List String :=
  ["oeko-tex", "oekotex", "oe ko tex", "oeko tex",
   "standard 100 by oeko-tex", "oeko-tex standard 100", "standard 100 oeko-tex",
   "made in green by oeko-tex", "oeko-tex made in green",
   "leather standard by oeko-tex", "oeko-tex leather standard",
   "step by oeko-tex", "oeko-tex step",
   "eco passport by oeko-tex", "oeko-tex eco passport",
   "oeko-tex organic cotton",
   "better cotton", "better cotton initiative", "bci",
   "bci cotton", "better cotton standard",
   "responsible wool standard", "rws",
   "responsible down standard", "rds",
   "responsible alpaca standard", "ras",
   "responsible mohair standard", "rms",
   "leather working group", "lwg",
   "lwg-certified", "lwg certified", "lwg gold rated", "lwg silver rated",
   "usda organic", "usda certified organic",
   "soil association organic", "soil association certified",
   "eu organic", "eu organic logo", "european organic logo",
   "recycled content certification", "scs recycled content",
   "recycled content certified",
   "leaping bunny", "cruelty free international",
   "peta cruelty-free", "peta cruelty free"]

/-- `_adjust_for_certifications` of `ecoscore.py`.  The keyword lists contain
pairwise distinct entries, so the Python set comprehension counts coincide
with counting the matching list entries. -/
def _adjust_for_certifications (base_score : ℚ) (certifications : List String) : ℚ :=
  if certifications = [] then base_score
  else
    let text := pyLower (String.intercalate " " certifications).data
    let strong_present := STRONG_CERT_KEYWORDS.any (fun kw => subOf kw.data text)
    let moderate_present := MODERATE_CERT_KEYWORDS.any (fun kw => subOf kw.data text)
    let strong_count := (STRONG_CERT_KEYWORDS.filter (fun kw => subOf kw.data text)).length
    let moderate_count := (MODERATE_CERT_KEYWORDS.filter (fun kw => subOf kw.data text)).length
    let adjustment : ℚ :=
      (if strong_present then -0.7 else 0)
      + (if moderate_present then -0.4 else 0)
      + (if 1 < strong_count then -0.15 * ((strong_count : ℚ) - 1) else 0)
      + (if 1 < moderate_count then -0.1 * ((moderate_count : ℚ) - 1) else 0)
    base_score + max adjustment (-1.5)

/-- `_clamp_score` of `ecoscore.py`. -/
def _clamp_score (score : ℚ) : ℚ := max 1 (min 5 score)

/-- `_score_to_grade` of `ecoscore.py`. -/
def _score_to_grade (score : ℚ) : String :=
  if score ≤ 1.6 then "A"
  else if score ≤ 2.5 then "B"
  else if score ≤ 3.4 then "C"
  else if score ≤ 4.3 then "D"
  else "E"

/-- One entry of the `labels` list of a Lykdat-style deep-tag payload; the
source reads the string fields `name`, `category` and `type`. -/
structure LykdatLabel where
  name : Option String
  category : Option String
  type : Option String
deriving DecidableEq

/-- The parts of the `lykdat_raw` dict read by `_infer_material_from_labels`
(its `labels` key).  `Option LykdatRaw = none` models an absent or falsy
(empty) dict. -/
structure LykdatRaw where
  labels : List LykdatLabel
deriving DecidableEq

/-- The `names` accumulation loop of `_infer_material_from_labels`: for each
label dict, the values of `name`, `category`, `type` that are strings, each
stripped and lowered, kept when non-empty. -/
def labelNames (labels : List LykdatLabel) : List (List Char) :=
  labels.flatMap (fun lab =>
    [lab.name, lab.category, lab.type].filterMap (fun v =>
      match v with
      | some s =>
        let w := pyLower (pyStrip s.data)
        if w = [] then none else some w
      | none => none))

/-- `_infer_material_from_labels` of `ecoscore.py`: the fixed, ordered
heuristic mapping Lykdat labels to a guessed materials string. -/
def _infer_material_from_labels (lykdat_raw : Option LykdatRaw) : Option String :=
  match lykdat_raw with
  | none => none
  | some raw =>
    let names := labelNames raw.labels
    if names = [] then none
    else
      let blob := List.intercalate [' '] names
      let has := fun (t : String) => subOf t.data blob
      if has "faux leather" || has "fake leather" || has "vegan leather" || has "pu leather"
          || has "pu-leather" || has "synthetic leather" || has "polyurethane leather" then
        some "100% synthetic_leather"
      else if has "leather" && !(has "faux" || has "vegan" || has "pu" || has "synthetic") then
        some "100% leather"
      else if has "faux fur" || has "fake fur" then some "100% synthetic_other"
      else if has "fur" then some "100% fur"
      else if (has "recycled" && has "polyester") || has "recycled polyester" || has "rpet" then
        some "100% recycled_polyester"
      else if (has "recycled" && has "cotton") || has "recycled cotton" then
        some "100% recycled_cotton"
      else if (has "recycled" && has "wool") || has "recycled wool" then
        some "100% recycled_wool"
      else if (has "recycled" && has "nylon") || (has "recycled" && has "polyamide") then
        some "100% recycled_polyamide"
      else if has "cashmere" then some "100% cashmere"
      else if has "merino" || has "wool" then some "80% wool, 20% polyamide"
      else if has "hemp" then some "100% hemp"
      else if has "linen" || has "flax" then some "100% linen"
      else if has "tencel" || has "lyocell" then some "100% lyocell"
      else if has "cupro" then some "100% cupro"
      else if has "organic cotton" then some "100% organic cotton"
      else if has "denim" || has "jeans" || has "jean" then
        let cotton_key := if has "organic" then "organic cotton" else "cotton"
        if has "stretch" || has "skinny" || has "slim" || has "jegging" || has "super stretch" then
          some ("98% " ++ cotton_key ++ ", 2% elastane")
        else if has "rigid" || has "non-stretch" || has "non stretch" then
          some ("100% " ++ cotton_key)
        else some ("98% " ++ cotton_key ++ ", 2% elastane")
      else if has "leggings" || has "legging" || has "yoga" || has "gym" || has "sports bra"
          || has "sport bra" || has "bike shorts" || has "biker shorts" || has "training tights"
          || has "running tights" || has "compression tights" then
        if has "nylon" || has "polyamide" then some "80% polyamide, 20% elastane"
        else some "80% polyester, 20% elastane"
      else if has "swimsuit" || has "swimwear" || has "bikini" || has "swim brief"
          || has "one-piece" || has "one piece" then
        if has "nylon" || has "polyamide" then some "80% polyamide, 20% elastane"
        else some "82% polyester, 18% elastane"
      else if has "fleece" || has "sherpa" then some "100% polyester"
      else if has "hoodie" || has "hooded sweatshirt" || has "sweatshirt" || has "sweatpants"
          || has "joggers" || has "jogger" || has "track pants" then
        some "60% cotton, 40% polyester"
      else if has "puffer" || has "down jacket" || has "quilted jacket" || has "padded jacket" then
        some "Shell: 100% polyester / Fill: 80% down, 20% feather"
      else if has "blazer" || has "tailored jacket" || has "suit jacket" || has "suit trouser"
          || has "suit pants" || has "overcoat" || has "peacoat" || has "trench coat" then
        if has "wool" || has "merino" then some "70% wool, 30% polyester"
        else some "70% polyester, 30% viscose"
      else if has "t-shirt" || has "tee" || has "t shirt" || has "tank top" || has "polo" then
        if has "performance" || has "training" || has "running" || has "jersey" || has "dry fit"
            || has "dri-fit" || has "dri fit" then some "100% polyester"
        else some "100% cotton"
      else if has "shirt" || has "button-down" || has "oxford" || has "blouse" then
        some "100% cotton"
      else if has "dress" || has "skirt" then
        if has "satin" || has "chiffon" || has "crepe" || has "georgette" || has "organza" then
          some "100% polyester"
        else if has "linen" then some "100% linen"
        else if has "viscose" || has "rayon" || has "modal" then some "100% viscose"
        else some "60% cotton, 40% polyester"
      else if has "hemp" then some "100% hemp"
      else if has "linen" || has "flax" then some "100% linen"
      else if has "tencel" || has "lyocell" then some "100% lyocell"
      else if has "bamboo" then some "100% bamboo"
      else if has "organic cotton" then some "100% organic cotton"
      else if has "cotton" then some "100% cotton"
      else if has "viscose" || has "rayon" then some "100% viscose"
      else if has "modal" then some "100% modal"
      else if has "cupro" then some "100% cupro"
      else if has "recycled polyester" || has "recycled_polyester" || has "rpet" then
        some "100% recycled_polyester"
      else if has "polyester" then some "100% polyester"
      else if has "recycled nylon" || has "recycled polyamide" then
        some "100% recycled_polyamide"
      else if has "nylon" || has "polyamide" then some "100% polyamide"
      else if has "acrylic" then some "100% acrylic"
      else if has "elastane" || has "spandex" || has "lycra" then some "100% elastane"
      else if has "down" then some "100% down"
      else if has "feather" then some "100% feather"
      else none

/-- `ProductMetadata` of `base.py` (prices as exact rationals). -/
structure ProductMetadata where
  url : String
  title : String
  brand : Option String
  product_name : Option String
  materials : Option String
  origin : Option String
  certifications : List String
  price : Option ℚ
  currency : Option String
  eco_notes : Option String
deriving DecidableEq

/-- `EcoScore` of `base.py`. -/
structure EcoScore where
  grade : String
  impact_score : ℚ
  material_and_origin : String
  certifications : List String
  impact_explanation : String
deriving DecidableEq

/-- Python truthiness of an optional string: `None` and `""` are falsy. -/
def strTruthy : Option String → Bool
  | none => false
  | some s => !s.data.isEmpty

/-- One entry of `tag_structured["material_composition"]`.  The percentage is
modelled for the integer payloads the upstream JSON schema produces; the
dynamic `f-string` rendering of other numeric types is out of the typed
model. -/
structure CompEntry where
  material : Option String
  name : Option String
  percentage : Option ℕ
deriving DecidableEq

/-- The dynamic `tag_structured["certifications"]` field: absent, a list of
strings, or a single string. -/
inductive TsCerts where
  | noneV : TsCerts
  | listV : List String → TsCerts
  | strV : String → TsCerts
deriving DecidableEq

/-- The parts of the `tag_structured` dict read by `compute_eco_score`. -/
structure TagStructured where
  materials : Option String
  material_composition : Option (List CompEntry)
  certifications : TsCerts
deriving DecidableEq

/-- Python `a or b` on optional strings (`""` is falsy). -/
def pyOrStr (a b : Option String) : Option String :=
  if strTruthy a then a else b

/-- The certification-appending loop of `compute_eco_score`: append each new
truthy certification from `tag_structured["certifications"]` to the copied
list, skipping duplicates. -/
def appendTsCerts (certs : List String) : TsCerts → List String
  | .noneV => certs
  | .listV cs =>
    cs.foldl (fun acc c => if c.data ≠ [] ∧ c ∉ acc then acc ++ [c] else acc) certs
  | .strV s => if pyStrip s.data ≠ [] ∧ s ∉ certs then certs ++ [s] else certs

/-- The `parts` loop rendering `material_composition` entries back into a
materials string (`f"{pct}% {name}"` per entry). -/
def compositionParts (comp : List CompEntry) : List String :=
  comp.foldl (fun acc m =>
    let nm := pyOrStr m.material m.name
    match nm, m.percentage with
    | some n, some pct => if strTruthy (some n) then acc ++ [toString pct ++ "% " ++ n] else acc
    | some n, none => if strTruthy (some n) then acc ++ [n] else acc
    | none, _ => acc) []

/-- Step 1 of `compute_eco_score`: derive the materials string from
`product.materials`, falling back to the label-inference guess, then letting
`tag_structured` (its `materials`, then its `material_composition`) override. -/
def eco_materials_str (product : ProductMetadata) (tag_structured : Option TagStructured)
    (lykdat_raw : Option LykdatRaw) : Option String :=
  let m0 := product.materials
  let m1 :=
    if !strTruthy m0 && lykdat_raw.isSome then
      match _infer_material_from_labels lykdat_raw with
      | some g => if strTruthy (some g) then some g else m0
      | none => m0
    else m0
  match tag_structured with
  | none => m1
  | some ts =>
    let mA :=
      match ts.materials with
      | some s => if pyStrip s.data ≠ [] then some s else m1
      | none => m1
    match ts.material_composition with
    | some comp =>
      if comp ≠ [] then
        let parts := compositionParts comp
        if parts ≠ [] then some (String.intercalate ", " parts) else mA
      else mA
    | none => mA

/-- Step 1 of `compute_eco_score` for certifications: copy the product list,
then append the tag-derived certifications. -/
def eco_certs (product : ProductMetadata) (tag_structured : Option TagStructured) : List String :=
  match tag_structured with
  | none => product.certifications
  | some ts => appendTsCerts product.certifications ts.certifications

/-- Steps 2-4 of `compute_eco_score`: tokens, weighted impact, certification
adjustment, clamp. -/
def eco_final_score (product : ProductMetadata) (tag_structured : Option TagStructured)
    (lykdat_raw : Option LykdatRaw) : ℚ :=
  _clamp_score
    (_adjust_for_certifications
      (_weighted_material_impact
        (_detect_material_tokens (eco_materials_str product tag_structured lykdat_raw)))
      (eco_certs product tag_structured))

/-- The data handed to the explanation collaborator (`_gemini_explanation`). -/
structure ExplainInput where
  grade : String
  impact_score : ℚ
  product : ProductMetadata
  material_tokens : List (String × Option ℚ)
  certifications : List String

/-- The material-and-origin summary string of `compute_eco_score` (step 5). -/
def eco_material_and_origin (product : ProductMetadata) (materials_str : Option String) : String :=
  let base :=
    match materials_str with
    | some s => if strTruthy (some s) then s else "unknown materials"
    | none => "unknown materials"
  let stripped := String.mk (pyStrip base.data)
  match product.origin with
  | some o => if strTruthy (some o) then stripped ++ " | origin: " ++ o else stripped
  | none => stripped

/-- `compute_eco_score` of `ecoscore.py`.  The Gemini explanation step is an
external text-generation collaborator (network call); it is modelled as the
function argument `explain`, which receives exactly the data the source
passes to `_gemini_explanation`. -/
def compute_eco_score (explain : ExplainInput → String) (product : ProductMetadata)
    (tag_structured : Option TagStructured) (lykdat_raw : Option LykdatRaw) : EcoScore :=
  let materials_str := eco_materials_str product tag_structured lykdat_raw
  let certs := eco_certs product tag_structured
  let tokens := _detect_material_tokens materials_str
  let final_score := eco_final_score product tag_structured lykdat_raw
  let grade := _score_to_grade final_score
  { grade := grade
    impact_score := final_score
    material_and_origin := eco_material_and_origin product materials_str
    certifications := certs
    impact_explanation := explain
      { grade := grade, impact_score := final_score, product := product,
        material_tokens := tokens, certifications := certs } }

/-- Python `int()` on a float/rational: truncation toward zero. -/
def pyInt (q : ℚ) : ℤ := if 0 ≤ q then ⌊q⌋ else ⌈q⌉

/-- The 0-100 presentation normalization of `transform_to_frontend_format`
in `api_server.py`: `max(0, min(100, int((6 - impact_score) / 5 * 100)))`. -/
def transform_to_frontend_score (impact_score : ℚ) : ℤ :=
  max 0 (min 100 (pyInt ((6 - impact_score) / 5 * 100)))

/-- Modelled from the spec: the claimed normalization
`clamp(round((6 − impactScore) / 5 × 100), 0, 100)`, which rounds the
fractional value to the nearest integer before clamping (the code instead
truncates via `int()`).  Kept only to compare against
`transform_to_frontend_score`. -/
def spec_frontend_score (impact_score : ℚ) : ℤ :=
  max 0 (min 100 (round ((6 - impact_score) / 5 * 100)))

/-- The fields of a Lykdat `similar_products` entry read by the locale-bias
helpers (`url`, `currency`) plus the `name` used downstream; Python compares
whole dicts by value in `p not in us_like`, which structure equality
models. -/
structure SimilarProduct where
  url : Option String
  currency : Option String
  name : Option String
deriving DecidableEq

/-- `US_RETAILER_DOMAINS` of `similar_search.py`. -/
def US_RETAILER_DOMAINS : List String :=
  ["macys.com", "nordstrom.com", "bloomingdales.com", "urbanoutfitters.com",
   "gap.com", "oldnavy.com", "bananarepublic.com", "jcrew.com", "ae.com",
   "abercrombie.com", "hollisterco.com", "levi.com", "zappos.com", "rei.com",
   "dillards.com", "kohls.com", "target.com", "walmart.com", "backcountry.com"]

/-- `is_us_like_product` of `similar_search.py`.  Note the final lenient
`return True`: a USD product whose URL is not on the allow-list is still
accepted. -/
def is_us_like_product (prod : SimilarProduct) : Bool :=
  let currency := pyUpper (prod.currency.getD "").data
  let url := pyLower (prod.url.getD "").data
  if currency ≠ "USD".data then false
  else if url = [] then true
  else if US_RETAILER_DOMAINS.any (fun dom => subOf dom.data url) then true
  else true

/-- `select_us_biased_products` of `similar_search.py`: keep the US-like
products first, then top up with the rest (`p not in us_like`). -/
def select_us_biased_products (flat_products : List SimilarProduct)
    (max_results : ℕ) : List SimilarProduct :=
  let us_like := flat_products.filter (fun p => is_us_like_product p)
  let non_us := flat_products.filter (fun p => decide (p ∉ us_like))
  if max_results ≤ us_like.length then us_like.take max_results
  else us_like ++ non_us.take (max_results - us_like.length)

/-- Modelled from the spec: the claimed "locale-preferred" classification --
currency is USD and (the URL contains an allow-listed retailer domain, or
there is no URL).  Kept only to compare against `is_us_like_product`. -/
def spec_locale_preferred (prod : SimilarProduct) : Bool :=
  let currency := pyUpper (prod.currency.getD "").data
  let url := pyLower (prod.url.getD "").data
  currency = "USD".data
    && (url = [] || US_RETAILER_DOMAINS.any (fun dom => subOf dom.data url))

/-- The orchestration of `find_similar_clothing_full_pipeline` in
`similar_search.py`, after the (network) global search and flattening: the
flattened, score-sorted list is the `flat_products` input, and the fallible
per-candidate extract-merge-score chain `_build_similar_product_object` /
`_worker` is the function argument `build` (`none` models a job that raised
and was caught at the job boundary).  The sequential branch drops failures in
the `try/except` loop; the thread-pool branch is `executor.map`, which
returns results in input order (not completion order), followed by the
`None`-filter. -/
def find_similar_clothing_full_pipeline {β : Type} (flat_products : List SimilarProduct)
    (max_results : ℕ) (max_workers : Option ℕ)
    (build : SimilarProduct → Option β) : List β :=
  let selected := select_us_biased_products flat_products max_results
  if selected = [] then []
  else
    let mw := match max_workers with | none => min 8 selected.length | some w => w
    if mw ≤ 1 then
      selected.filterMap build
    else
      (selected.map build).filterMap id

/-- A Python exception as seen by the fallback wrappers of `tagging.py`:
either a `RuntimeError` with its message (only those are caught) or any
other exception. -/
inductive PyExc where
  | runtimeError : String → PyExc
  | otherError : String → PyExc
deriving DecidableEq

/-- The failure class that triggers the Vision+Gemini fallback in
`smart_deep_tag_image_file` / `..._url`: a `RuntimeError` whose message
contains `image deep tagging limit reached` or `status 403`. -/
def quota_or_forbidden : PyExc → Bool
  | .runtimeError msg =>
    subOf "image deep tagging limit reached".data msg.data
      || subOf "status 403".data msg.data
  | .otherError _ => false

/-- `smart_deep_tag_image_file` of `tagging.py`.  The primary Lykdat call and
the secondary Vision+Gemini call are external collaborators; their outcomes
are the `Except` arguments (`primary` is only consulted when the
`USE_LYKDAT_DEEP_TAGGING` flag selects it). -/
def smart_deep_tag_image_file {R : Type} (use_lykdat : Bool)
    (primary secondary : Except PyExc R) : Except PyExc R :=
  if use_lykdat then
    match primary with
    | .ok r => .ok r
    | .error e => if quota_or_forbidden e then secondary else .error e
  else secondary

/-- `smart_deep_tag_image_url` of `tagging.py`: same fallback state machine
as the file variant. -/
def smart_deep_tag_image_url {R : Type} (use_lykdat : Bool)
    (primary secondary : Except PyExc R) : Except PyExc R :=
  if use_lykdat then
    match primary with
    | .ok r => .ok r
    | .error e => if quota_or_forbidden e then secondary else .error e
  else secondary

/-- A reference to a mutable Python list object. -/
abbrev HRef := ℕ

/-- Heap of mutable string-list objects, indexed by allocation order.  This
models Python object identity for the certification lists that
`compute_eco_score` touches; all other `ProductMetadata` fields are
immutable Python values (strings, floats, None) and cannot be mutated. -/
abbrev CertHeap := List (List String)

/-- Read the list object behind a reference. -/
def heapRead (h : CertHeap) (r : HRef) : List String := h.getD r []

/-- Allocate a fresh list object (this is what `list(...)` does). -/
def heapAlloc (h : CertHeap) (v : List String) : CertHeap × HRef := (h ++ [v], h.length)

/-- `certs.append(c)`: in-place mutation of the referenced list object. -/
def heapPush (h : CertHeap) (r : HRef) (c : String) : CertHeap :=
  h.set r (heapRead h r ++ [c])

/-- The certification-appending loop of `compute_eco_score`, on the heap:
each `certs.append` mutates the object behind `r` in place. -/
def appendTsCertsHeap (h : CertHeap) (r : HRef) : TsCerts → CertHeap
  | .noneV => h
  | .listV cs =>
    cs.foldl (fun hh c => if c.data ≠ [] ∧ c ∉ heapRead hh r then heapPush hh r c else hh) h
  | .strV s => if pyStrip s.data ≠ [] ∧ s ∉ heapRead h r then heapPush h r s else h

/-- The mutation-relevant slice of `compute_eco_score`: `certs =
list(product.certifications or [])` allocates a fresh list object (a copy),
and all subsequent `append` calls target that copy; the returned `EcoScore`
carries the reference to the copy. -/
def compute_eco_score_cert_state (h : CertHeap) (productCerts : HRef)
    (tag_structured : Option TagStructured) : CertHeap × HRef :=
  let a := heapAlloc h (heapRead h productCerts)
  let h2 :=
    match tag_structured with
    | none => a.1
    | some ts => appendTsCertsHeap a.1 a.2 ts.certifications
  (h2, a.2)

/-! ## Theorems -/

/-- Claim C2: the grade mapping is a pure deterministic step function with
inclusive upper boundaries: s ≤ 1.6 ↦ A, 1.6 < s ≤ 2.5 ↦ B, 2.5 < s ≤ 3.4 ↦
C, 3.4 < s ≤ 4.3 ↦ D, 4.3 < s ↦ E; the exact boundary values 1.6, 2.5, 3.4
and 4.3 map to A, B, C and D. -/
theorem grade_mapping_step_function (s : ℚ) :
    (_score_to_grade s = "A" ↔ s ≤ 1.6)
    ∧ (_score_to_grade s = "B" ↔ 1.6 < s ∧ s ≤ 2.5)
    ∧ (_score_to_grade s = "C" ↔ 2.5 < s ∧ s ≤ 3.4)
    ∧ (_score_to_grade s = "D" ↔ 3.4 < s ∧ s ≤ 4.3)
    ∧ (_score_to_grade s = "E" ↔ 4.3 < s)
    ∧ _score_to_grade 1.6 = "A" ∧ _score_to_grade 2.5 = "B"
    ∧ _score_to_grade 3.4 = "C" ∧ _score_to_grade 4.3 = "D" := by
  unfold _score_to_grade
  refine ⟨?_, ?_, ?_, ?_, ?_, by norm_num, by norm_num, by norm_num, by norm_num⟩ <;>
    split_ifs with h1 h2 h3 h4 <;> simp_all <;>
      first
        | linarith
        | (intro hx; linarith)

/-- Claim C3: for every base score and certification list, the certification
adjustment never increases the score, never improves it by more than the 1.5
cap, and leaves an empty certification list untouched. -/
theorem cert_adjustment_nonpositive_capped (base_score : ℚ) (certifications : List String) :
    _adjust_for_certifications base_score certifications ≤ base_score
    ∧ base_score - _adjust_for_certifications base_score certifications ≤ 1.5
    ∧ _adjust_for_certifications base_score [] = base_score := by
  have hshape : ∀ b A : ℚ, A ≤ 0 →
      b + max A (-1.5) ≤ b ∧ b - (b + max A (-1.5)) ≤ 1.5 := by
    intro b A hA
    constructor
    · have h1 := max_le hA (show (-1.5 : ℚ) ≤ 0 by norm_num)
      linarith
    · have h2 := le_max_right A (-1.5 : ℚ)
      linarith
  have habs : ∀ (p q : Bool) (m n : ℕ),
      ((if p then (-0.7 : ℚ) else 0) + (if q then (-0.4 : ℚ) else 0)
        + (if 1 < m then -0.15 * ((m : ℚ) - 1) else 0)
        + (if 1 < n then -0.1 * ((n : ℚ) - 1) else 0)) ≤ 0 := by
    intro p q m n
    have hp : (if p then (-0.7 : ℚ) else 0) ≤ 0 := by split_ifs <;> norm_num
    have hq : (if q then (-0.4 : ℚ) else 0) ≤ 0 := by split_ifs <;> norm_num
    have hm : (if 1 < m then -0.15 * ((m : ℚ) - 1) else 0) ≤ 0 := by
      split_ifs with h
      · have h2 : (1 : ℚ) ≤ (m : ℚ) := by exact_mod_cast h.le
        nlinarith
      · norm_num
    have hn : (if 1 < n then -0.1 * ((n : ℚ) - 1) else 0) ≤ 0 := by
      split_ifs with h
      · have h2 : (1 : ℚ) ≤ (n : ℚ) := by exact_mod_cast h.le
        nlinarith
      · norm_num
    linarith
  have hmain : ∀ (b : ℚ) (cs : List String),
      _adjust_for_certifications b cs ≤ b ∧ b - _adjust_for_certifications b cs ≤ 1.5 := by
    intro b cs
    unfold _adjust_for_certifications
    split_ifs with hcs
    · exact ⟨le_refl b, by norm_num⟩
    · exact hshape b _ (habs _ _ _ _)
  exact ⟨(hmain base_score certifications).1, (hmain base_score certifications).2,
    by simp [_adjust_for_certifications]⟩

/-- Claim C4: for every input product, tag payload and label payload, the
final impact score of compute_eco_score lies in [1, 5], and the returned
grade is consistent with that score and one of A-E. -/
theorem compute_eco_score_clamped (explain : ExplainInput → String)
    (product : ProductMetadata) (tag_structured : Option TagStructured)
    (lykdat_raw : Option LykdatRaw) :
    1 ≤ (compute_eco_score explain product tag_structured lykdat_raw).impact_score
    ∧ (compute_eco_score explain product tag_structured lykdat_raw).impact_score ≤ 5
    ∧ (compute_eco_score explain product tag_structured lykdat_raw).grade
      = _score_to_grade (compute_eco_score explain product tag_structured lykdat_raw).impact_score
    ∧ ((compute_eco_score explain product tag_structured lykdat_raw).grade = "A"
      ∨ (compute_eco_score explain product tag_structured lykdat_raw).grade = "B"
      ∨ (compute_eco_score explain product tag_structured lykdat_raw).grade = "C"
      ∨ (compute_eco_score explain product tag_structured lykdat_raw).grade = "D"
      ∨ (compute_eco_score explain product tag_structured lykdat_raw).grade = "E") := by
  have himp : (compute_eco_score explain product tag_structured lykdat_raw).impact_score
      = eco_final_score product tag_structured lykdat_raw := rfl
  have hgr : (compute_eco_score explain product tag_structured lykdat_raw).grade
      = _score_to_grade (eco_final_score product tag_structured lykdat_raw) := rfl
  refine ⟨?_, ?_, ?_, ?_⟩
  · rw [himp]; unfold eco_final_score _clamp_score; exact le_max_left _ _
  · rw [himp]; unfold eco_final_score _clamp_score
    exact max_le (by norm_num) (min_le_left _ _)
  · rw [himp, hgr]
  · rw [hgr]; unfold _score_to_grade; split_ifs <;> simp

/-- The all-empty product record, as produced for a fully unparseable input:
no materials, no origin, no certifications. -/
def bareProduct : ProductMetadata :=
  { url := "", title := "", brand := none, product_name := none, materials := none,
    origin := none, certifications := [], price := none, currency := none,
    eco_notes := none }

/-- Claim C9: the material parser is total and never returns an empty token
list — absent input (None), the empty string, and strings with no parseable
segment all fall back to the (unknown, None) sentinel — and a product with
empty materials, no tag hints and no image-tag payload scores composite 3.5
(the unknown impact) with grade D. -/
theorem parser_total_unknown_fallback :
    (∀ materials : Option String, _detect_material_tokens materials ≠ [])
    ∧ _detect_material_tokens none = [("unknown", none)]
    ∧ _detect_material_tokens (some "") = [("unknown", none)]
    ∧ _detect_material_tokens (some " ,;/ ") = [("unknown", none)]
    ∧ ∀ explain : ExplainInput → String,
        (compute_eco_score explain bareProduct none none).impact_score = 3.5
        ∧ (compute_eco_score explain bareProduct none none).grade = "D" := by
  have hscore : eco_final_score bareProduct none none = 3.5 := by
    have h1 : eco_materials_str bareProduct none none = none := rfl
    have hug : materialImpactGet "unknown" = 3.5 := rfl
    have h3 : _weighted_material_impact (_detect_material_tokens none) = 3.5 := by
      norm_num [_detect_material_tokens, _weighted_material_impact, hug]
    have h4 : eco_certs bareProduct none = [] := rfl
    unfold eco_final_score
    rw [h1, h4, h3]
    have h5 : _adjust_for_certifications 3.5 [] = 3.5 := by
      norm_num [_adjust_for_certifications]
    rw [h5]
    unfold _clamp_score
    norm_num
  refine ⟨?_, rfl, by decide, by decide, ?_⟩
  · intro materials
    match materials with
    | none => simp [_detect_material_tokens]
    | some ms =>
      simp only [_detect_material_tokens]
      split_ifs with h1 h2
      · simp
      · simp
      · exact h2
  · intro explain
    constructor
    · show eco_final_score bareProduct none none = 3.5
      exact hscore
    · show _score_to_grade (eco_final_score bareProduct none none) = "D"
      rw [hscore]
      norm_num [_score_to_grade]

/-- Claim C5 counterexample: the code truncates via Python int() instead of
rounding to nearest — at impact score 3.66 (the worked example) the code
yields 46 while the claimed clamp(round(...)) formula yields 47. -/
theorem frontend_normalization_truncates :
    transform_to_frontend_score 3.66 = 46
    ∧ spec_frontend_score 3.66 = 47
    ∧ transform_to_frontend_score 3.66 ≠ spec_frontend_score 3.66 := by
  have hval : ((6 - 3.66 : ℚ) / 5 * 100) = 46.8 := by norm_num
  have hfl : ⌊(46.8 : ℚ)⌋ = 46 := by norm_num
  have ht : transform_to_frontend_score 3.66 = 46 := by
    unfold transform_to_frontend_score pyInt
    rw [hval, if_pos (show (0 : ℚ) ≤ 46.8 by norm_num), hfl]
    norm_num
  have hrd : round (46.8 : ℚ) = 47 := by
    rw [round_eq]
    norm_num
  have hs : spec_frontend_score 3.66 = 47 := by
    unfold spec_frontend_score
    rw [hval, hrd]
    norm_num
  exact ⟨ht, hs, by rw [ht, hs]; decide⟩

/-- Claim C5 (amended): the worked example "80% cotton, 20% polyester" with
no certifications parses to tokens [(cotton, 80), (polyester, 20)], composite
0.8·3.6 + 0.2·3.9 = 3.66 and grade D, and the presentation normalization is
clamp(trunc((6 − impactScore)/5 × 100), 0, 100) — truncation toward zero, not
rounding — giving 46. -/
theorem frontend_worked_example :
    _detect_material_tokens (some "80% cotton, 20% polyester")
      = [("cotton", some 80), ("polyester", some 20)]
    ∧ _weighted_material_impact [("cotton", some 80), ("polyester", some 20)] = 3.66
    ∧ _clamp_score (_adjust_for_certifications 3.66 []) = 3.66
    ∧ _score_to_grade 3.66 = "D"
    ∧ transform_to_frontend_score 3.66 = 46 := by
  have h1 : materialImpactGet "cotton" = 3.6 := rfl
  have h2 : materialImpactGet "polyester" = 3.9 := rfl
  refine ⟨by decide, ?_, ?_, ?_, ?_⟩
  · norm_num [_weighted_material_impact, h1, h2]
    simp
  · norm_num [_adjust_for_certifications, _clamp_score]
  · norm_num [_score_to_grade]
  · have hval : ((6 - 3.66 : ℚ) / 5 * 100) = 46.8 := by norm_num
    have hfl : ⌊(46.8 : ℚ)⌋ = 46 := by norm_num
    unfold transform_to_frontend_score pyInt
    rw [hval, if_pos (show (0 : ℚ) ≤ 46.8 by norm_num), hfl]
    norm_num

/-- Claim C1 (code bug): when every token carries percentage 0 (sum ≤ 0) the
fallback weights are each 1.0, not 1/n, so the composite is the sum of the
impact values (7.5 for cotton + polyester) instead of their plain average
(3.75) — contradicting the docstring "Compute a weighted average impact
score" and the equal-split intent. -/
theorem zero_percentage_sum_not_average :
    _detect_material_tokens (some "0% cotton, 0% polyester")
      = [("cotton", some 0), ("polyester", some 0)]
    ∧ _weighted_material_impact [("cotton", some 0), ("polyester", some 0)] = 7.5
    ∧ (materialImpactGet "cotton" + materialImpactGet "polyester") / 2 = 3.75
    ∧ (7.5 : ℚ) ≠ 3.75 := by
  have h1 : materialImpactGet "cotton" = 3.6 := rfl
  have h2 : materialImpactGet "polyester" = 3.9 := rfl
  refine ⟨by decide, ?_, ?_, by norm_num⟩
  · norm_num [_weighted_material_impact, h1, h2]
    simp
  · rw [h1, h2]; norm_num

/-- Helper: the length of a filterMap plus the number of dropped (None)
elements is the input length. -/
theorem filterMap_len_add {α β : Type} (f : α → Option β) (l : List α) :
    (l.filterMap f).length + (l.filter (fun a => (f a).isNone)).length = l.length := by
  induction l with
  | nil => rfl
  | cons a t ih =>
    cases hfa : f a <;> simp [List.filterMap_cons, hfa, List.filter_cons] <;> omega

/-- Helper: a filterMap lists the images of the succeeding elements in input
order. -/
theorem filterMap_eq_map_getD {α β : Type} (f : α → Option β) (d : β) (l : List α) :
    l.filterMap f = (l.filter (fun a => (f a).isSome)).map (fun a => (f a).getD d) := by
  induction l with
  | nil => rfl
  | cons a t ih =>
    cases hfa : f a <;> simp [List.filterMap_cons, hfa, List.filter_cons, ih]

/-- Helper: both the sequential branch and the thread-pool branch of the
alternatives pipeline compute the order-preserving filterMap of the build
function over the selected candidates. -/
theorem pipeline_eq_filterMap {β : Type} (flat_products : List SimilarProduct) (k : ℕ)
    (mw : Option ℕ) (build : SimilarProduct → Option β) :
    find_similar_clothing_full_pipeline flat_products k mw build
      = (select_us_biased_products flat_products k).filterMap build := by
  simp only [find_similar_clothing_full_pipeline]
  split_ifs with h1 h2
  · rw [h1]; rfl
  · rfl
  · rw [List.filterMap_map, Function.id_comp]

/-- Claim C6: per-candidate failures in the alternatives aggregation are
isolated: with exactly one failing candidate among the selected ones the
result has one entry fewer; the surviving results are the images of the
succeeding candidates in input ranking order (not completion order); and a
degenerate request (max_results = 0, or nothing selected) yields an empty
list rather than an error. -/
theorem alternatives_isolated_ordered {β : Type} [Inhabited β]
    (flat_products : List SimilarProduct) (k : ℕ) (mw : Option ℕ)
    (build : SimilarProduct → Option β) :
    (((select_us_biased_products flat_products k).filter
        (fun p => (build p).isNone)).length = 1 →
      (find_similar_clothing_full_pipeline flat_products k mw build).length
        = (select_us_biased_products flat_products k).length - 1)
    ∧ find_similar_clothing_full_pipeline flat_products k mw build
      = ((select_us_biased_products flat_products k).filter
          (fun p => (build p).isSome)).map (fun p => (build p).getD default)
    ∧ find_similar_clothing_full_pipeline flat_products 0 mw build = [] := by
  refine ⟨?_, ?_, ?_⟩
  · intro hone
    rw [pipeline_eq_filterMap]
    have hlen := filterMap_len_add build (select_us_biased_products flat_products k)
    omega
  · rw [pipeline_eq_filterMap]
    exact filterMap_eq_map_getD build default _
  · rw [pipeline_eq_filterMap]
    have hsel : select_us_biased_products flat_products 0 = [] := by
      unfold select_us_biased_products
      simp
    rw [hsel]
    rfl

/-- Five USD candidates for the fan-out example; as Lykdat similar-product
entries they would all be selected. -/
def altFlatExample : List SimilarProduct :=
  [{ url := none, currency := some "USD", name := some "p1" },
   { url := none, currency := some "USD", name := some "p2" },
   { url := none, currency := some "USD", name := some "p3" },
   { url := none, currency := some "USD", name := some "p4" },
   { url := none, currency := some "USD", name := some "p5" }]

/-- A build function whose extract-merge-score chain fails exactly on the
third candidate. -/
def altBuildExample : SimilarProduct → Option ℕ :=
  fun p => if p.name = some "p3" then none else some ((p.name.getD "").length)

theorem alternatives_isolated_ordered_witness :
    (find_similar_clothing_full_pipeline altFlatExample 5 none altBuildExample).length = 4 :=
  ((alternatives_isolated_ordered altFlatExample 5 none altBuildExample).1
    (by decide)).trans (by decide)

/-- A USD-priced product whose URL is on no allow-listed retailer domain. -/
def usdOffListProduct : SimilarProduct :=
  { url := some "https://example.com/item", currency := some "USD", name := none }

/-- Claim C7 counterexample: the classification is not "currency is USD and
(allow-listed domain or no URL)" — a USD product with a URL outside the
allow-list is still accepted by the lenient final branch of
is_us_like_product. -/
theorem locale_preferred_mismatch :
    is_us_like_product usdOffListProduct = true
    ∧ spec_locale_preferred usdOffListProduct = false := by decide

/-- Helper: filtering by not-membership in the US-like sublist equals
filtering by the negated predicate, since membership in a filter of the same
list is decided by the predicate. -/
theorem non_us_filter_eq (flat_products : List SimilarProduct) :
    flat_products.filter
        (fun p => decide (p ∉ flat_products.filter (fun q => is_us_like_product q)))
      = flat_products.filter (fun p => !is_us_like_product p) := by
  apply List.filter_congr
  intro x hx
  by_cases h : is_us_like_product x <;> simp [List.mem_filter, hx, h]

/-- Helper: a filter and its negation partition the list length. -/
theorem length_filter_not_add {α : Type} (p : α → Bool) (l : List α) :
    (l.filter p).length + (l.filter (fun a => !p a)).length = l.length := by
  induction l with
  | nil => rfl
  | cons a t ih => cases h : p a <;> simp [List.filter_cons, h] <;> omega

/-- Claim C7 (amended): an item is locale-preferred exactly when its
uppercased currency is USD (an off-allow-list URL does not exclude it); the
output is the first max_results preferred items when at least that many
exist, otherwise all preferred items followed by enough non-preferred items,
and its length is min(max_results, total) — never truncated below the
request while items remain. -/
theorem locale_bias_select_spec (p : SimilarProduct)
    (flat_products : List SimilarProduct) (k : ℕ) :
    (is_us_like_product p = true ↔ pyUpper (p.currency.getD "").data = "USD".data)
    ∧ (select_us_biased_products flat_products k).length = min k flat_products.length
    ∧ select_us_biased_products flat_products k =
        (if k ≤ (flat_products.filter (fun q => is_us_like_product q)).length then
          (flat_products.filter (fun q => is_us_like_product q)).take k
        else
          flat_products.filter (fun q => is_us_like_product q)
            ++ (flat_products.filter (fun q => !is_us_like_product q)).take
                (k - (flat_products.filter (fun q => is_us_like_product q)).length)) := by
  refine ⟨?_, ?_, ?_⟩
  · unfold is_us_like_product
    by_cases hc : pyUpper (p.currency.getD "").data = "USD".data
    · simp only [hc]
      split_ifs <;> simp_all
    · simp only [hc]
      split_ifs <;> simp_all
  · simp only [select_us_biased_products]
    rw [non_us_filter_eq]
    have hle := List.length_filter_le (fun q => is_us_like_product q) flat_products
    have hadd := length_filter_not_add (fun q => is_us_like_product q) flat_products
    split_ifs with hk
    · simp only [List.length_take]
      omega
    · simp only [List.length_append, List.length_take]
      omega
  · simp only [select_us_biased_products]
    rw [non_us_filter_eq]

/-- Claim C8: in the image-tagging fallback state machine, only the
quota/forbidden failure class (a RuntimeError mentioning the deep-tagging
limit or status 403) triggers the secondary Vision+Gemini fallback; any
other primary error is re-raised unchanged, whatever the secondary would
have produced, in both the file and the URL wrapper. -/
theorem tagging_fallback_only_on_quota {R : Type} (e : PyExc)
    (secondary : Except PyExc R) :
    (quota_or_forbidden e = false →
      smart_deep_tag_image_file true (Except.error e) secondary = Except.error e
      ∧ smart_deep_tag_image_url true (Except.error e) secondary = Except.error e)
    ∧ (quota_or_forbidden e = true →
      smart_deep_tag_image_file true (Except.error e) secondary = secondary
      ∧ smart_deep_tag_image_url true (Except.error e) secondary = secondary) := by
  constructor <;> intro h <;>
    exact ⟨by simp [smart_deep_tag_image_file, h], by simp [smart_deep_tag_image_url, h]⟩

/-- A primary failure outside the quota class (an HTTP 500). -/
def fatalExcExample : PyExc :=
  PyExc.runtimeError "Lykdat deep tagging failed for file photo.jpg with status 500: server error"

/-- A primary failure in the quota class (quota message and status 403). -/
def quotaExcExample : PyExc :=
  PyExc.runtimeError "Lykdat deep tagging failed for url img with status 403: image deep tagging limit reached"

theorem tagging_fallback_only_on_quota_witness :
    smart_deep_tag_image_file true (Except.error fatalExcExample) (Except.ok (42 : ℕ))
      = Except.error fatalExcExample
    ∧ smart_deep_tag_image_file true (Except.error quotaExcExample) (Except.ok (42 : ℕ))
      = Except.ok 42 :=
  ⟨((tagging_fallback_only_on_quota fatalExcExample (Except.ok 42)).1 (by decide)).1,
   ((tagging_fallback_only_on_quota quotaExcExample (Except.ok 42)).2 (by decide)).1⟩

/-- Helper: an in-place append to one list object leaves every other
reference unchanged. -/
theorem heapRead_push_of_ne (h : CertHeap) (r r2 : HRef) (c : String) (hne : r2 ≠ r) :
    heapRead (heapPush h r c) r2 = heapRead h r2 := by
  unfold heapPush heapRead
  simp only [List.getD_eq_getElem?_getD]
  rw [List.getElem?_set_ne (Ne.symm hne)]

/-- Helper: an in-place append to a valid reference appends to its
contents. -/
theorem heapRead_push_self (h : CertHeap) (r : HRef) (c : String) (hr : r < h.length) :
    heapRead (heapPush h r c) r = heapRead h r ++ [c] := by
  unfold heapPush heapRead
  rw [List.getD_eq_getElem?_getD, List.getElem?_set_self hr]
  rfl

/-- Helper: pushes never change the number of allocated objects. -/
theorem heapPush_length (h : CertHeap) (r : HRef) (c : String) :
    (heapPush h r c).length = h.length :=
  List.length_set h r (heapRead h r ++ [c])

/-- Helper: the certification-append loop over a list only mutates the target
object, computes on it exactly the pure fold, and preserves the heap size. -/
theorem certLoop_spec (cs : List String) :
    ∀ (h : CertHeap) (r : HRef), r < h.length →
      (∀ r2, r2 ≠ r →
        heapRead (cs.foldl
          (fun hh c => if c.data ≠ [] ∧ c ∉ heapRead hh r then heapPush hh r c else hh) h) r2
          = heapRead h r2)
      ∧ heapRead (cs.foldl
          (fun hh c => if c.data ≠ [] ∧ c ∉ heapRead hh r then heapPush hh r c else hh) h) r
          = cs.foldl (fun acc c => if c.data ≠ [] ∧ c ∉ acc then acc ++ [c] else acc)
              (heapRead h r)
      ∧ (cs.foldl
          (fun hh c => if c.data ≠ [] ∧ c ∉ heapRead hh r then heapPush hh r c else hh)
          h).length = h.length := by
  induction cs with
  | nil => exact fun h r _ => ⟨fun _ _ => rfl, rfl, rfl⟩
  | cons c t ih =>
    intro h r hr
    by_cases hc : c.data ≠ [] ∧ c ∉ heapRead h r
    · have hlen := heapPush_length h r c
      have hr2 : r < (heapPush h r c).length := by rw [hlen]; exact hr
      obtain ⟨ha, hb, hl⟩ := ih (heapPush h r c) r hr2
      refine ⟨?_, ?_, ?_⟩
      · intro r2 hne
        rw [List.foldl_cons, if_pos hc, ha r2 hne, heapRead_push_of_ne h r r2 c hne]
      · rw [List.foldl_cons, if_pos hc, hb, heapRead_push_self h r c hr,
          List.foldl_cons, if_pos hc]
      · rw [List.foldl_cons, if_pos hc, hl, hlen]
    · obtain ⟨ha, hb, hl⟩ := ih h r hr
      refine ⟨?_, ?_, ?_⟩
      · intro r2 hne
        rw [List.foldl_cons, if_neg hc, ha r2 hne]
      · rw [List.foldl_cons, if_neg hc, hb, List.foldl_cons, if_neg hc]
      · rw [List.foldl_cons, if_neg hc, hl]

/-- Helper: the heap version of the tag-certification append agrees with the
pure `appendTsCerts` on the target object and touches nothing else. -/
theorem appendTsCertsHeap_spec (h : CertHeap) (r : HRef) (tc : TsCerts)
    (hr : r < h.length) :
    (∀ r2, r2 ≠ r → heapRead (appendTsCertsHeap h r tc) r2 = heapRead h r2)
    ∧ heapRead (appendTsCertsHeap h r tc) r = appendTsCerts (heapRead h r) tc
    ∧ (appendTsCertsHeap h r tc).length = h.length := by
  cases tc with
  | noneV => exact ⟨fun _ _ => rfl, rfl, rfl⟩
  | listV cs => exact certLoop_spec cs h r hr
  | strV s =>
    by_cases hcond : pyStrip s.data ≠ [] ∧ s ∉ heapRead h r
    · refine ⟨?_, ?_, ?_⟩ <;>
        simp only [appendTsCertsHeap, appendTsCerts, if_pos hcond]
      · intro r2 hne
        exact heapRead_push_of_ne h r r2 s hne
      · exact heapRead_push_self h r s hr
      · exact heapPush_length h r s
    · have e1 : appendTsCertsHeap h r (TsCerts.strV s) = h := by
        simp only [appendTsCertsHeap, if_neg hcond]
      have e2 : appendTsCerts (heapRead h r) (TsCerts.strV s) = heapRead h r := by
        simp only [appendTsCerts, if_neg hcond]
      exact ⟨fun r2 _ => by rw [e1], by rw [e1, e2], by rw [e1]⟩

/-- Claim C10: compute_eco_score never mutates its ProductMetadata argument:
in the heap model of the only mutable field, every previously allocated list
object (the product certification list in particular) reads the same after
the call, while the returned EcoScore carries a fresh reference — the copy
made by list(product.certifications or []) — whose contents are the pure
copy-then-append result. -/
theorem compute_eco_score_no_mutation (h : CertHeap) (r : HRef)
    (tag_structured : Option TagStructured) (hr : r < h.length) :
    (∀ r2, r2 < h.length →
      heapRead (compute_eco_score_cert_state h r tag_structured).1 r2 = heapRead h r2)
    ∧ (compute_eco_score_cert_state h r tag_structured).2 ≠ r
    ∧ (compute_eco_score_cert_state h r tag_structured).2 = h.length
    ∧ heapRead (compute_eco_score_cert_state h r tag_structured).1
        (compute_eco_score_cert_state h r tag_structured).2
      = appendTsCerts (heapRead h r)
          (match tag_structured with
            | none => TsCerts.noneV
            | some ts => ts.certifications) := by
  have hkeep : ∀ r2, r2 < h.length →
      heapRead (h ++ [heapRead h r]) r2 = heapRead h r2 := by
    intro r2 hlt
    unfold heapRead
    simp only [List.getD_eq_getElem?_getD]
    rw [List.getElem?_append, if_pos hlt]
  have hreadA : heapRead (h ++ [heapRead h r]) h.length = heapRead h r := by
    unfold heapRead
    rw [List.getD_eq_getElem?_getD, List.getElem?_concat_length]
    rfl
  have hlenA : h.length < (h ++ [heapRead h r]).length := by
    simp
  cases tag_structured with
  | none =>
    refine ⟨hkeep, ?_, rfl, hreadA⟩
    exact fun hE => absurd (hE ▸ hr) (lt_irrefl _)
  | some ts =>
    obtain ⟨ha, hb, _⟩ := appendTsCertsHeap_spec (h ++ [heapRead h r]) h.length
      ts.certifications hlenA
    refine ⟨?_, ?_, rfl, ?_⟩
    · intro r2 hlt
      have hne : r2 ≠ h.length := by omega
      calc heapRead (compute_eco_score_cert_state h r (some ts)).1 r2
          = heapRead (h ++ [heapRead h r]) r2 := ha r2 hne
        _ = heapRead h r2 := hkeep r2 hlt
    · exact fun hE => absurd (hE ▸ hr) (lt_irrefl _)
    · calc heapRead (compute_eco_score_cert_state h r (some ts)).1 h.length
          = appendTsCerts (heapRead (h ++ [heapRead h r]) h.length) ts.certifications := hb
        _ = appendTsCerts (heapRead h r) ts.certifications := by rw [hreadA]

/-- A one-object heap holding the product certification list. -/
def certHeapExample : CertHeap := [["GOTS"]]

/-- A tag-structured payload contributing one certification. -/
def tagStructuredExample : TagStructured :=
  { materials := none, material_composition := none,
    certifications := TsCerts.listV ["OEKO-TEX STANDARD 100"] }

theorem compute_eco_score_no_mutation_witness :
    heapRead (compute_eco_score_cert_state certHeapExample 0 (some tagStructuredExample)).1 0
      = ["GOTS"]
    ∧ (compute_eco_score_cert_state certHeapExample 0 (some tagStructuredExample)).2 ≠ 0 := by
  have H := compute_eco_score_no_mutation certHeapExample 0 (some tagStructuredExample)
    (by decide)
  exact ⟨(H.1 0 (by decide)).trans (by decide), H.2.1⟩
